import Mathlib

/-!
Verification development for the UK grape-growing suitability pipeline
(`GrapeML` in `final1.js`).

Shallow embedding conventions:
* A raster over a region is a function `P → ℚ` where `P` is the type of the
  region's pixels; a boolean raster is `P → Bool`.  `clip(region)` only
  restricts the spatial extent, so with `P` already denoting the region's
  pixels it is the identity and is not represented explicitly.
* Earth Engine is a remote, lazily evaluated service.  Every remote call whose
  numeric outcome is not computable from the repository's own code
  (`randomPoints`, `sampleRegions`, the random forest, `randomColumn`, and the
  server's possibility of answering NaN or throwing) is modelled as a field of
  an explicit environment `GEEEnv`; the control flow, the gate comparisons,
  the constants and the returned record shapes are translated from
  `final1.js` lines 57-400 and 509-521.
* Possibly-NaN Earth Engine numbers are modelled as `Option ℚ`, `none`
  standing for NaN; `eeDiv` returns `none` exactly on a zero denominator.
-/

/-- A monthly TERRACLIMATE image: calendar month plus the `tmmx`, `tmmn`
(tenths of °C) and `pr` (mm) bands as per-pixel rasters. -/
structure MonthImg (P : Type) where
  month : ℕ
  tmmx : P → ℚ
  tmmn : P → ℚ
  pr : P → ℚ

/-- Source `filter(ee.Filter.calendarRange(4, 10, 'month'))`: keep the growing-season
months 4–10 (`final1.js` lines 97, 116, 138). -/
def growingSeason {P : Type} (tc : List (MonthImg P)) : List (MonthImg P) :=
  tc.filter (fun m => 4 ≤ m.month && m.month ≤ 10)

/-- Per-month mean temperature `(tmmx/10 + tmmn/10)/2` (`final1.js`
lines 99-101 and 119-121; the source stores tenths of a degree). -/
def tmeanOf {P : Type} (m : MonthImg P) : P → ℚ :=
  fun p => (m.tmmx p / 10 + m.tmmn p / 10) / 2

/-- Source `computeGST` (`final1.js` lines 94-104): mean of the monthly `tmean` band
over the growing-season months.  The mean of an empty collection is no-data in
Earth Engine; here `q / 0 = 0` stands in for that case (no claim touches it). -/
def computeGST {P : Type} (tc : List (MonthImg P)) : P → ℚ :=
  fun p =>
    let ms := growingSeason tc
    (ms.map (fun m => tmeanOf m p)).sum / (ms.length : ℚ)

/-- Source `computeGDD` (`final1.js` lines 113-128): per growing-season month
`max(tmean - baseTemp, 0) * daysPerMonth`, summed over the collection. -/
def computeGDD {P : Type} (tc : List (MonthImg P)) (baseTemp daysPerMonth : ℚ) :
    P → ℚ :=
  fun p =>
    ((growingSeason tc).map
      (fun m => max (tmeanOf m p - baseTemp) 0 * daysPerMonth)).sum

/-- Source `computeGSP` (`final1.js` lines 135-143): sum of the monthly `pr` band over
the growing-season months. -/
def computeGSP {P : Type} (tc : List (MonthImg P)) : P → ℚ :=
  fun p => ((growingSeason tc).map (fun m => m.pr p)).sum

/-- The bundle of scalar environmental rasters (`results` object built by
`computeEnvironmentalFactors`, `final1.js` lines 65-87). -/
structure Factors (P : Type) where
  gst : P → ℚ
  gdd : P → ℚ
  gsp : P → ℚ
  slope : P → ℚ
  aspect : P → ℚ
  elevation : P → ℚ
  latitude : P → ℚ

/-- The external gridded sources consumed by `computeEnvironmentalFactors`:
the year's TERRACLIMATE monthly images, and the SRTM-derived terrain rasters.
`ee.Terrain.slope` / `ee.Terrain.aspect` are neighbourhood operations of the
external provider, so slope and aspect are inputs here rather than computed
from the elevation raster. -/
structure FactorSources (P : Type) where
  climate : List (MonthImg P)
  slope : P → ℚ
  aspect : P → ℚ
  elevation : P → ℚ
  latitude : P → ℚ

/-- Source `computeEnvironmentalFactors` (`final1.js` lines 65-87): GST, GDD with
`baseTemp = 10` and `daysPerMonth = 30` (line 72), GSP, and the terrain and
latitude rasters, all clipped to the region. -/
def computeEnvironmentalFactors {P : Type} (src : FactorSources P) : Factors P :=
  { gst := computeGST src.climate
  , gdd := computeGDD src.climate 10 30
  , gsp := computeGSP src.climate
  , slope := src.slope
  , aspect := src.aspect
  , elevation := src.elevation
  , latitude := src.latitude }

/-- Embeds `img.gte(c)` as a boolean raster. -/
def gteImg {P : Type} (img : P → ℚ) (c : ℚ) : P → Bool :=
  fun p => decide (c ≤ img p)

/-- Embeds `img.lte(c)` as a boolean raster. -/
def lteImg {P : Type} (img : P → ℚ) (c : ℚ) : P → Bool :=
  fun p => decide (img p ≤ c)

/-- Embeds `img.gt(c)` as a boolean raster. -/
def gtImg {P : Type} (img : P → ℚ) (c : ℚ) : P → Bool :=
  fun p => decide (c < img p)

/-- Embeds `a.and(b)` on boolean rasters. -/
def andImg {P : Type} (a b : P → Bool) : P → Bool :=
  fun p => a p && b p

/-- Source `computeSuitabilityMask` (`final1.js` lines 150-162): the AND of the five
inclusive threshold range tests. -/
def computeSuitabilityMask {P : Type} (factors : Factors P) : P → Bool :=
  let gstMask := andImg (gteImg factors.gst 14) (lteImg factors.gst 16)
  let gddMask := andImg (gteImg factors.gdd 950) (lteImg factors.gdd 1250)
  let gspMask := andImg (gteImg factors.gsp 250) (lteImg factors.gsp 600)
  let slopeMask := andImg (gteImg factors.slope 2) (lteImg factors.slope 15)
  let elevationMask :=
    andImg (gteImg factors.elevation 5) (lteImg factors.elevation 250)
  andImg (andImg (andImg (andImg gstMask gddMask) gspMask) slopeMask)
    elevationMask

/-- The five threshold ranges of `computeSuitabilityMask` as data, used to
state the monotonicity property. -/
structure MaskBounds where
  gstLo : ℚ
  gstHi : ℚ
  gddLo : ℚ
  gddHi : ℚ
  gspLo : ℚ
  gspHi : ℚ
  slopeLo : ℚ
  slopeHi : ℚ
  elevLo : ℚ
  elevHi : ℚ

/-- Modelled from the spec: `computeSuitabilityMask` with its five fixed
ranges replaced by parameters, used to express "widening a threshold range";
`suitabilityMaskWith defaultMaskBounds` coincides with the source function. -/
def suitabilityMaskWith {P : Type} (b : MaskBounds) (factors : Factors P) :
    P → Bool :=
  let gstMask := andImg (gteImg factors.gst b.gstLo) (lteImg factors.gst b.gstHi)
  let gddMask := andImg (gteImg factors.gdd b.gddLo) (lteImg factors.gdd b.gddHi)
  let gspMask := andImg (gteImg factors.gsp b.gspLo) (lteImg factors.gsp b.gspHi)
  let slopeMask :=
    andImg (gteImg factors.slope b.slopeLo) (lteImg factors.slope b.slopeHi)
  let elevationMask :=
    andImg (gteImg factors.elevation b.elevLo) (lteImg factors.elevation b.elevHi)
  andImg (andImg (andImg (andImg gstMask gddMask) gspMask) slopeMask)
    elevationMask

/-- The ranges hard-coded in `computeSuitabilityMask` (`final1.js`
lines 151-155). -/
def defaultMaskBounds : MaskBounds :=
  { gstLo := 14, gstHi := 16, gddLo := 950, gddHi := 1250
  , gspLo := 250, gspHi := 600, slopeLo := 2, slopeHi := 15
  , elevLo := 5, elevHi := 250 }

/-- Relation `b.widens b'`: every range of `b'` contains the corresponding range of
`b` (each bound moved outward or kept). -/
def MaskBounds.widens (b b' : MaskBounds) : Prop :=
  b'.gstLo ≤ b.gstLo ∧ b.gstHi ≤ b'.gstHi ∧
  b'.gddLo ≤ b.gddLo ∧ b.gddHi ≤ b'.gddHi ∧
  b'.gspLo ≤ b.gspLo ∧ b.gspHi ≤ b'.gspHi ∧
  b'.slopeLo ≤ b.slopeLo ∧ b.slopeHi ≤ b'.slopeHi ∧
  b'.elevLo ≤ b.elevLo ∧ b.elevHi ≤ b'.elevHi

/-- Source `computeArea` (`final1.js` lines 509-521):
`mask.multiply(ee.Image.pixelArea())` summed over the region's pixels by
`reduceRegion(sum)`.  `regionPixels` is the list of pixels of the region at
the reduction scale, `pixelArea` the per-pixel area in m².  Note the source
returns this raw sum without any unit conversion. -/
def computeArea {P : Type} (mask : P → Bool) (pixelArea : P → ℚ)
    (regionPixels : List P) : ℚ :=
  (regionPixels.map (fun p => (if mask p then (1 : ℚ) else 0) * pixelArea p)).sum

/-- Modelled from the spec: `computeArea` as §6 of the spec describes it —
"km², via pixel-area integration", i.e. the pixel-area sum divided by 1e6.
Stated separately so it can be compared with the source's `computeArea`. -/
def computeAreaSpecKm2 {P : Type} (mask : P → Bool) (pixelArea : P → ℚ)
    (regionPixels : List P) : ℚ :=
  (regionPixels.map
    (fun p => (if mask p then (1 : ℚ) else 0) * pixelArea p)).sum / 1000000

/-- The caller side (`batchFeatures`, `final1.js` lines 1986-1990):
`area_km2 = ee.Number(computeArea(mask, region)).divide(1e6)`. -/
def batchFeatureAreaKm2 {P : Type} (mask : P → Bool) (pixelArea : P → ℚ)
    (regionPixels : List P) : ℚ :=
  computeArea mask pixelArea regionPixels / 1000000

/-- A generated sample point: an abstract point identity plus the `class`
property attached by the sampling code (1 for positives, 0 for negatives). -/
structure Sample where
  pt : ℕ
  cls : ℕ
deriving DecidableEq, Repr

/-- A row of the feature table produced by `featureImage.sampleRegions`:
the retained `class` property and the extracted feature vector. -/
structure FRow where
  cls : ℕ
  feats : List ℚ
deriving DecidableEq, Repr

/-- A feature row after `randomColumn()` attached the `random` property. -/
structure TRow where
  cls : ℕ
  feats : List ℚ
  random : ℚ
deriving DecidableEq, Repr

/-- A test row after `testing.classify(classifier)` attached the predicted
`classification` property. -/
structure VRow where
  cls : ℕ
  classification : ℕ
deriving DecidableEq, Repr

/-- The random-forest hyperparameters handed to
`ee.Classifier.smileRandomForest` (`final1.js` lines 291-294). -/
structure RFParams where
  numberOfTrees : ℕ
  variablesPerSplit : ℕ
  seed : ℕ
deriving DecidableEq, Repr

/-- The hyperparameters used by `runMachineLearning`: 50 trees, 2 variables
per split, seed 42. -/
def rfParams : RFParams := ⟨50, 2, 42⟩

/-- An Earth Engine property value: number or string. -/
inductive EEVal where
  | num (q : ℚ)
  | str (s : String)
deriving DecidableEq, Repr

/-- Property lookup on a classified test row, as `ee.Filter` sees it:
`class` and `classification` are its numeric properties. -/
def VRow.getProp (v : VRow) (name : String) : Option EEVal :=
  if name = "class" then some (.num v.cls)
  else if name = "classification" then some (.num v.classification)
  else none

/-- Semantics of `ee.Filter.eq(name, value)`: passes when the feature's property `name`
equals the constant `value` (the Earth Engine API compares a property with a
constant here; property-to-property comparison would require
`ee.Filter.equals` with `leftField`/`rightField`). -/
def eeFilterEq (name : String) (value : EEVal) (v : VRow) : Bool :=
  v.getProp name == some value

/-- Earth Engine division as a possibly-NaN number: `none` on a zero
denominator, otherwise the exact quotient. -/
def eeDiv (a b : ℚ) : Option ℚ :=
  if b = 0 then none else some (a / b)

/-- Semantics of `errorMatrix('class', 'classification').accuracy()`: the confusion
matrix's overall accuracy, i.e. the trace (rows whose actual class equals the
predicted class) over the total row count; NaN on an empty test set. -/
def errorMatrixAccuracy (validation : List VRow) : Option ℚ :=
  eeDiv ((validation.countP (fun v => v.cls == v.classification) : ℕ) : ℚ)
    ((validation.length : ℕ) : ℚ)

/-- The remote-service environment of `runMachineLearning`: every value the
code obtains from Earth Engine rather than computing itself.  `Except String`
results model calls whose evaluation can raise an exception (caught by the
function's `try`/`catch`); geometries are abstract handles (`ℕ`).
`accuracyServedNaN` models the server answering NaN for the confusion-matrix
accuracy (the condition the source's `isNaN` check defends against), and
`accuracyThrows` models an exception inside the inner accuracy `try` block. -/
structure GEEEnv (P : Type) where
  /-- Value of `vineyards.filterBounds(region).size().getInfo()`. -/
  vineyardSize : Except String ℕ
  /-- Handle of `regionalVineyards.geometry()`. -/
  regionalVineyardsGeom : ℕ
  /-- Handle of the analysis region's geometry. -/
  regionGeom : ℕ
  /-- Result of `ee.FeatureCollection.randomPoints {region, points, seed}` followed by
  the `.size().getInfo()` realization: the realized point list. -/
  randomPoints : ℕ → ℕ → ℕ → Except String (List ℕ)
  /-- Membership test of `ee.Filter.bounds(nonSuitableArea.selfMask().geometry())`. -/
  inComplement : ℕ → Bool
  /-- Result of `featureImage.sampleRegions {collection, properties: ['class'],
  scale: 100, tileScale: 16}`: per-point feature extraction; points whose
  pixels carry no data are dropped by the service. -/
  sampleRegions : List Sample → Except String (List FRow)
  /-- The value `randomColumn()` attaches to the row at a given position. -/
  randomValue : ℕ → ℚ
  /-- The trained `smileRandomForest` classifier in hard-class mode, as a
  function of its hyperparameters, training rows, and an input vector. -/
  classify : RFParams → List TRow → List ℚ → ℕ
  /-- The trained classifier in `PROBABILITY` output mode applied to the
  feature image (after `reproject`), as a per-pixel score. -/
  classifyProb : RFParams → List TRow → (P → List ℚ) → P → ℚ
  /-- The server reports NaN for `errorMatrix(...).accuracy()`. -/
  accuracyServedNaN : Bool
  /-- A call inside the inner accuracy `try` block throws. -/
  accuracyThrows : Bool
  /-- Values of `ee.Image.pixelArea()` on the region's pixels at the reduction scale. -/
  pixelArea : P → ℚ
  /-- The region's pixels at the reduction scale. -/
  regionPixels : List P
  /-- Feature importances from `classifier.explain()`. -/
  importance : List (String × ℚ)

/-- The outcome object of `runMachineLearning`: either the
`{success: false, error, suitabilityMask}` record of the failure branches, or
the `{success: true, ...}` record of the final return (its raster-debugging
fields `featureImage`, `classifier` and `sampledPoints` omitted). -/
inductive MLOutcome (P : Type) where
  | failure (error : String) (suitabilityMask : P → Bool)
  | success (suitabilityScore : P → ℚ) (highSuitabilityAreas : P → Bool)
      (area : ℚ) (accuracy : Option ℚ) (importance : List (String × ℚ))
      (positiveCount : ℕ) (negativeCount : ℕ)

/-- The `accuracy` field of a success outcome, when the outcome is one. -/
def MLOutcome.mlAccuracy {P : Type} : MLOutcome P → Option (Option ℚ)
  | .success _ _ _ acc _ _ _ => some acc
  | .failure _ _ => none

/-- Source `positivePointCount = Math.min(vineyardCount * 10, 200)` (`final1.js`
line 201). -/
def positivePointCount (vineyardCount : ℕ) : ℕ :=
  min (vineyardCount * 10) 200

/-- Positive sample generation (`final1.js` lines 204-210):
`randomPoints` inside the regional vineyards' geometry with the requested
count and seed 123, each point labelled `class = 1`. -/
def generatePositivePoints {P : Type} (env : GEEEnv P) (vineyardCount : ℕ) :
    Except String (List Sample) :=
  match env.randomPoints env.regionalVineyardsGeom
      (positivePointCount vineyardCount) 123 with
  | .error e => .error e
  | .ok pts => .ok (pts.map (fun p => Sample.mk p 1))

/-- Negative sample generation (`final1.js` lines 225-233): 400 random points
inside the region with seed 456, filtered to the complement of the
suitability mask, each labelled `class = 0`. -/
def generateNegativePoints {P : Type} (env : GEEEnv P) :
    Except String (List Sample) :=
  match env.randomPoints env.regionGeom 400 456 with
  | .error e => .error e
  | .ok pts => .ok ((pts.filter env.inComplement).map (fun p => Sample.mk p 0))

/-- Source `sampledPoints.randomColumn()` (`final1.js` line 271): attach the service's
random value to each row by position. -/
def attachRandomColumn {P : Type} (env : GEEEnv P) (rows : List FRow) :
    List TRow :=
  rows.mapIdx (fun i r => ⟨r.cls, r.feats, env.randomValue i⟩)

/-- The 7-band feature image `ee.Image.cat([...])` (`final1.js`
lines 175-183), as the per-pixel feature vector in band order. -/
def featureImageOf {P : Type} (factors : Factors P) : P → List ℚ :=
  fun p =>
    [factors.gst p, factors.gdd p, factors.gsp p, factors.slope p,
     factors.aspect p, factors.elevation p, factors.latitude p]

/-- The accuracy-evaluation block of `runMachineLearning` (`final1.js`
lines 304-325): inside a `try`, compute the confusion-matrix accuracy; if the
served value is NaN, recompute it as the size of
`validation.filter(ee.Filter.eq('class', 'classification'))` over the total
size; if anything in the block throws, fall back to `ee.Number(0)`. -/
def evaluateAccuracy {P : Type} (env : GEEEnv P) (validation : List VRow) :
    Option ℚ :=
  if env.accuracyThrows then some 0
  else
    match
      if env.accuracyServedNaN then none else errorMatrixAccuracy validation
    with
    | some a => some a
    | none =>
        eeDiv
          (((validation.filter
              (eeFilterEq "class" (.str "classification"))).length : ℕ) : ℚ)
          ((validation.length : ℕ) : ℚ)

/-- The body of `runMachineLearning` (`final1.js` lines 172-361), i.e. the
`try` block: the five count gates with their early `{success: false}` returns,
then training, evaluation, probability scoring, thresholding at 0.7 and
pixel-area integration.  An `Except` error is an exception reaching the outer
`catch`. -/
def runMachineLearningBody {P : Type} (env : GEEEnv P) (factors : Factors P)
    (suitabilityMask : P → Bool) : Except String (MLOutcome P) :=
  match env.vineyardSize with
  | .error e => .error e
  | .ok vineyardCount =>
    if vineyardCount < 5 then
      .ok (.failure
        "Insufficient vineyard data in the selected region for machine learning prediction"
        suitabilityMask)
    else
      match generatePositivePoints env vineyardCount with
      | .error e => .error e
      | .ok positivePoints =>
        if positivePoints.length < 5 then
          .ok (.failure "Unable to generate sufficient positive sample points"
            suitabilityMask)
        else
          match generateNegativePoints env with
          | .error e => .error e
          | .ok negativePoints =>
            if negativePoints.length < 5 then
              .ok (.failure
                "Unable to generate sufficient negative sample points"
                suitabilityMask)
            else
              match env.sampleRegions (positivePoints ++ negativePoints) with
              | .error e => .error e
              | .ok sampledPoints =>
                if sampledPoints.length < 10 then
                  .ok (.failure
                    "Feature extraction failed, insufficient sample points"
                    suitabilityMask)
                else
                  let withRandom := attachRandomColumn env sampledPoints
                  let training :=
                    withRandom.filter (fun r => decide (r.random < 7/10))
                  let testing :=
                    withRandom.filter (fun r => !(decide (r.random < 7/10)))
                  if training.length < 5 ∨ testing.length < 5 then
                    .ok (.failure "Insufficient training or testing set size"
                      suitabilityMask)
                  else
                    let validation := testing.map
                      (fun r => VRow.mk r.cls
                        (env.classify rfParams training r.feats))
                    let accuracy := evaluateAccuracy env validation
                    let suitabilityScore :=
                      env.classifyProb rfParams training (featureImageOf factors)
                    let highSuitabilityAreas := gtImg suitabilityScore (7/10)
                    let area := computeArea highSuitabilityAreas env.pixelArea
                      env.regionPixels
                    .ok (.success suitabilityScore highSuitabilityAreas area
                      accuracy env.importance positivePoints.length
                      negativePoints.length)

/-- Source `runMachineLearning` (`final1.js` lines 172-370): the body wrapped in the
outer `try`/`catch`, which converts any exception into
`{success: false, error: error.message, suitabilityMask}`. -/
def runMachineLearning {P : Type} (env : GEEEnv P) (factors : Factors P)
    (suitabilityMask : P → Bool) : MLOutcome P :=
  match runMachineLearningBody env factors suitabilityMask with
  | .ok r => r
  | .error e => .failure e suitabilityMask

/-- The aggregate return object of `analyzeSuitability` (`final1.js`
lines 391-398); the `region`, `year` and `vineyards` pass-through fields are
not repeated here. -/
structure AnalysisResult (P : Type) where
  factors : Factors P
  suitabilityMask : P → Bool
  mlResults : MLOutcome P

/-- Source `analyzeSuitability` (`final1.js` lines 378-399): compute the factors,
the threshold mask, then run the machine-learning stage on them. -/
def analyzeSuitability {P : Type} (env : GEEEnv P) (src : FactorSources P) :
    AnalysisResult P :=
  let factors := computeEnvironmentalFactors src
  let suitabilityMask := computeSuitabilityMask factors
  let mlResults := runMachineLearning env factors suitabilityMask
  ⟨factors, suitabilityMask, mlResults⟩

/-- The five distinct DataInsufficiency reason strings of the count gates
(`final1.js` lines 195, 219, 242, 265, 284). -/
def dataInsufficiencyReasons : List String :=
  [ "Insufficient vineyard data in the selected region for machine learning prediction"
  , "Unable to generate sufficient positive sample points"
  , "Unable to generate sufficient negative sample points"
  , "Feature extraction failed, insufficient sample points"
  , "Insufficient training or testing set size" ]

/-- Does one of the five count gates of `runMachineLearning` trip?  Replays
the pipeline's stages (`final1.js` lines 189-287) and answers `true` exactly
when a stage's realized count falls below its gate; an exception is not a
count-gate failure. -/
def countGatesFail {P : Type} (env : GEEEnv P) : Bool :=
  match env.vineyardSize with
  | .error _ => false
  | .ok vineyardCount =>
    if vineyardCount < 5 then true
    else
      match generatePositivePoints env vineyardCount with
      | .error _ => false
      | .ok positivePoints =>
        if positivePoints.length < 5 then true
        else
          match generateNegativePoints env with
          | .error _ => false
          | .ok negativePoints =>
            if negativePoints.length < 5 then true
            else
              match env.sampleRegions (positivePoints ++ negativePoints) with
              | .error _ => false
              | .ok sampledPoints =>
                if sampledPoints.length < 10 then true
                else
                  let withRandom := attachRandomColumn env sampledPoints
                  let training :=
                    withRandom.filter (fun r => decide (r.random < 7/10))
                  let testing :=
                    withRandom.filter (fun r => !(decide (r.random < 7/10)))
                  decide (training.length < 5) || decide (testing.length < 5)

/-- A concrete one-pixel factors bundle whose values satisfy every threshold
range. -/
def unitFactors : Factors Unit :=
  { gst := fun _ => 15, gdd := fun _ => 1000, gsp := fun _ => 400
  , slope := fun _ => 5, aspect := fun _ => 180, elevation := fun _ => 100
  , latitude := fun _ => 51 }

/-- A concrete one-pixel factor-source bundle (one growing-season month). -/
def unitSources : FactorSources Unit :=
  { climate := [⟨5, fun _ => 200, fun _ => 100, fun _ => 50⟩]
  , slope := fun _ => 5, aspect := fun _ => 180
  , elevation := fun _ => 100, latitude := fun _ => 51 }

/-- The all-false one-pixel boolean raster. -/
def falseMask : Unit → Bool := fun _ => false

/-- A concrete environment that drives every gate of `runMachineLearning` to
success: 5 vineyards, 5 realized positive points (seed 123), 5 realized
negative points (seed 456), all 10 rows surviving feature extraction, and a
5/5 train/test split. -/
def baseEnv : GEEEnv Unit :=
  { vineyardSize := .ok 5
  , regionalVineyardsGeom := 0
  , regionGeom := 1
  , randomPoints := fun _ _ seed =>
      if seed = 123 then .ok [0, 1, 2, 3, 4] else .ok [10, 11, 12, 13, 14]
  , inComplement := fun _ => true
  , sampleRegions := fun samples =>
      .ok (samples.map (fun s => ⟨s.cls, [15, 1000, 400, 5, 180, 100, 51]⟩))
  , randomValue := fun i => if i < 5 then 0 else 1
  , classify := fun _ _ _ => 0
  , classifyProb := fun _ _ _ _ => 0
  , accuracyServedNaN := false
  , accuracyThrows := false
  , pixelArea := fun _ => 62500
  , regionPixels := [()]
  , importance := [] }

/-- Environment with only 3 vineyards in the region. -/
def lowVineyardEnv : GEEEnv Unit :=
  { baseEnv with vineyardSize := .ok 3 }

/-- Environment where seed-123 point generation realizes only 3 points. -/
def fewPositivesEnv : GEEEnv Unit :=
  { baseEnv with randomPoints := fun _ _ seed =>
      if seed = 123 then .ok [0, 1, 2] else .ok [10, 11, 12, 13, 14] }

/-- Environment whose first remote call throws. -/
def throwingEnv : GEEEnv Unit :=
  { baseEnv with vineyardSize := .error "Computation timed out." }

/-- Environment where the served confusion-matrix accuracy is NaN. -/
def nanAccuracyEnv : GEEEnv Unit :=
  { baseEnv with accuracyServedNaN := true }

/-- A degenerate test split: five rows, every actual class 0 and every
predicted class 0 (so every prediction is correct). -/
def degenerateValidation : List VRow :=
  List.replicate 5 ⟨0, 0⟩

/-- Bounds widening the gst range of `defaultMaskBounds` from [14,16] to
[13,17] and keeping the other four ranges. -/
def widerGstBounds : MaskBounds :=
  { defaultMaskBounds with gstLo := 13, gstHi := 17 }

/-- Environment where a call inside the inner accuracy try block throws. -/
def throwsAccuracyEnv : GEEEnv Unit :=
  { baseEnv with accuracyThrows := true }

/-- C4: for every factors bundle and pixel, `computeSuitabilityMask` is the
logical AND of the five inclusive range tests gst∈[14,16], gdd∈[950,1250],
gsp∈[250,600], slope∈[2,15], elevation∈[5,250].  The function is a plain
Lean function of its input, hence pure and deterministic. -/
theorem computeSuitabilityMask_thresholds :
    ∀ (P : Type) (factors : Factors P) (p : P),
      computeSuitabilityMask factors p = true ↔
        ((14 ≤ factors.gst p ∧ factors.gst p ≤ 16) ∧
         (950 ≤ factors.gdd p ∧ factors.gdd p ≤ 1250) ∧
         (250 ≤ factors.gsp p ∧ factors.gsp p ≤ 600) ∧
         (2 ≤ factors.slope p ∧ factors.slope p ≤ 15) ∧
         (5 ≤ factors.elevation p ∧ factors.elevation p ≤ 250)) := by
  intro P factors p
  simp only [computeSuitabilityMask, andImg, gteImg, lteImg,
    Bool.and_eq_true, decide_eq_true_eq]
  tauto

/-- C5: widening any (or every) one of the five threshold ranges of
`computeSuitabilityMask` never shrinks the true-pixel set: any pixel true
under the source's fixed bounds stays true under any wider bounds.  The
parametrized mask at the default bounds coincides with the source mask. -/
theorem computeSuitabilityMask_monotone :
    ∀ (P : Type) (b : MaskBounds) (factors : Factors P) (p : P),
      suitabilityMaskWith defaultMaskBounds factors p
        = computeSuitabilityMask factors p
    ∧ (MaskBounds.widens defaultMaskBounds b →
        computeSuitabilityMask factors p = true →
        suitabilityMaskWith b factors p = true) := by
  intro P b factors p
  constructor
  · rfl
  · intro hw hm
    simp only [computeSuitabilityMask, andImg, gteImg, lteImg,
      Bool.and_eq_true, decide_eq_true_eq] at hm
    simp only [MaskBounds.widens, defaultMaskBounds] at hw
    simp only [suitabilityMaskWith, andImg, gteImg, lteImg,
      Bool.and_eq_true, decide_eq_true_eq]
    obtain ⟨⟨⟨⟨⟨g1, g2⟩, ⟨d1, d2⟩⟩, ⟨s1, s2⟩⟩, ⟨l1, l2⟩⟩, e1, e2⟩ := hm
    obtain ⟨w1, w2, w3, w4, w5, w6, w7, w8, w9, w10⟩ := hw
    exact ⟨⟨⟨⟨⟨by linarith, by linarith⟩, by linarith, by linarith⟩,
      by linarith, by linarith⟩, by linarith, by linarith⟩,
      by linarith, by linarith⟩

/-- C5 witness: widening the gst range from [14,16] to [13,17] keeps the
concrete suitable pixel suitable. -/
theorem computeSuitabilityMask_monotone_witness :
    suitabilityMaskWith widerGstBounds unitFactors () = true :=
  (computeSuitabilityMask_monotone Unit widerGstBounds unitFactors ()).2
    (by norm_num [MaskBounds.widens, defaultMaskBounds, widerGstBounds])
    (by decide)

/-- C6: the GDD raster of `computeEnvironmentalFactors` is `computeGDD` with
baseTemp 10 and daysPerMonth 30, which sums `max(0, tmean - 10) * 30` with
`tmean = (tmax/10 + tmin/10)/2` over the growing-season months; for a single
month with raw tmax 200 and raw tmin 100 the monthly GDD is exactly 150. -/
theorem computeGDD_formula :
    ∀ (P : Type) (src : FactorSources P) (p : P),
      ((computeEnvironmentalFactors src).gdd p
        = ((growingSeason src.climate).map
            (fun m => max 0 ((m.tmmx p / 10 + m.tmmn p / 10) / 2 - 10) * 30)).sum)
    ∧ computeGDD [⟨5, fun _ => 200, fun _ => 100, fun _ => 0⟩] 10 30 p = 150 := by
  intro P src p
  constructor
  · simp only [computeEnvironmentalFactors, computeGDD, tmeanOf, max_comm]
  · norm_num [computeGDD, growingSeason, tmeanOf]

/-- C9 counterexample: on a one-pixel region whose pixel measures 62500 m²
and an all-true mask, the source's `computeArea` returns the raw sum 62500,
not the km² value 62500/1e6 claimed by the spec. -/
theorem computeArea_km2_counterexample :
    computeArea (fun _ : Unit => true) (fun _ => 62500) [()] = 62500
  ∧ computeAreaSpecKm2 (fun _ : Unit => true) (fun _ => 62500) [()] = 1 / 16
  ∧ computeArea (fun _ : Unit => true) (fun _ => 62500) [()]
      ≠ computeAreaSpecKm2 (fun _ : Unit => true) (fun _ => 62500) [()] := by
  refine ⟨?_, ?_, ?_⟩ <;> norm_num [computeArea, computeAreaSpecKm2]

/-- C9 amended: `computeArea` returns the raw per-pixel mask × pixel-area sum
(m²); the km² conversion happens at the caller (`batchFeatures` divides by
1e6); the sum is nonnegative whenever the pixel areas are, and is 0 on the
all-false mask. -/
theorem computeArea_amended :
    ∀ (P : Type) (mask : P → Bool) (pixelArea : P → ℚ) (regionPixels : List P),
      ((∀ p ∈ regionPixels, 0 ≤ pixelArea p) →
        0 ≤ computeArea mask pixelArea regionPixels)
    ∧ computeArea (fun _ => false) pixelArea regionPixels = 0
    ∧ batchFeatureAreaKm2 mask pixelArea regionPixels
        = computeArea mask pixelArea regionPixels / 1000000 := by
  intro P mask pixelArea regionPixels
  refine ⟨?_, ?_, rfl⟩
  · intro h
    apply List.sum_nonneg
    intro x hx
    simp only [List.mem_map] at hx
    obtain ⟨p, hp, rfl⟩ := hx
    have hp' := h p hp
    split <;> simp [hp']
  · simp [computeArea]

/-- C9 amended witness: on the concrete one-pixel region the raw-sum area is
nonnegative. -/
theorem computeArea_amended_witness :
    (0 : ℚ) ≤ computeArea (fun _ : Unit => true) (fun _ => 62500) [()] :=
  (computeArea_amended Unit (fun _ => true) (fun _ => 62500) [()]).1
    (by intro p hp; norm_num)

/-- Helper: every `{success: false}` object produced inside the try block of
`runMachineLearning` carries the `suitabilityMask` argument unchanged. -/
theorem body_failure_mask {P : Type} (env : GEEEnv P) (factors : Factors P)
    (mask : P → Bool) (e : String) (mk : P → Bool)
    (h : runMachineLearningBody env factors mask = .ok (.failure e mk)) :
    mk = mask := by
  unfold runMachineLearningBody at h
  repeat' split at h
  all_goals try simp_all
  all_goals split at h
  all_goals simp_all

/-- Helper: when one of the five count gates trips, the try block returns a
failure carrying the input mask and one of the five DataInsufficiency
reasons. -/
theorem countGatesFail_body {P : Type} (env : GEEEnv P) (factors : Factors P)
    (mask : P → Bool) (h : countGatesFail env = true) :
    ∃ e, runMachineLearningBody env factors mask = .ok (.failure e mask)
      ∧ e ∈ dataInsufficiencyReasons := by
  unfold countGatesFail at h
  unfold runMachineLearningBody
  repeat' split at h
  all_goals try simp_all [dataInsufficiencyReasons]
  all_goals repeat rw [if_neg (by omega)]
  all_goals exact ⟨_, rfl, by simp⟩

/-- Helper: the accuracy-evaluation block always produces a non-NaN value in
[0,1] on a nonempty test split. -/
theorem evaluateAccuracy_bounds {P : Type} (env : GEEEnv P)
    (validation : List VRow) (hlen : 0 < validation.length) :
    ∃ q, evaluateAccuracy env validation = some q ∧ 0 ≤ q ∧ q ≤ 1 := by
  have hpos : (0 : ℚ) < ((validation.length : ℕ) : ℚ) := by exact_mod_cast hlen
  unfold evaluateAccuracy
  by_cases ht : env.accuracyThrows
  · rw [if_pos ht]
    exact ⟨0, rfl, le_rfl, zero_le_one⟩
  · rw [if_neg ht]
    by_cases hs : env.accuracyServedNaN
    · rw [if_pos hs]
      unfold eeDiv
      rw [if_neg (ne_of_gt hpos)]
      refine ⟨_, rfl, div_nonneg (by positivity) hpos.le, ?_⟩
      rw [div_le_one hpos]
      exact_mod_cast List.length_filter_le _ _
    · rw [if_neg hs]
      unfold errorMatrixAccuracy eeDiv
      rw [if_neg (ne_of_gt hpos)]
      refine ⟨_, rfl, div_nonneg (by positivity) hpos.le, ?_⟩
      rw [div_le_one hpos]
      exact_mod_cast List.countP_le_length _

/-- Helper: the accuracy field of every success outcome of the try block is
the accuracy-evaluation block's value on a test split that passed the
size-5 gate. -/
theorem body_success_accuracy {P : Type} (env : GEEEnv P) (factors : Factors P)
    (mask : P → Bool) (s : P → ℚ) (hs : P → Bool) (a : ℚ) (acc : Option ℚ)
    (imp : List (String × ℚ)) (pc nc : ℕ)
    (h : runMachineLearningBody env factors mask
      = .ok (.success s hs a acc imp pc nc)) :
    ∃ validation : List VRow, 0 < validation.length
      ∧ acc = evaluateAccuracy env validation := by
  unfold runMachineLearningBody at h
  repeat' split at h
  all_goals try simp_all
  all_goals split at h
  · simp_all
  · rename_i hsplit
    simp only [Except.ok.injEq, MLOutcome.success.injEq] at h
    obtain ⟨-, -, -, hacc, -, -, -⟩ := h
    refine ⟨_, ?_, hacc.symm⟩
    rw [List.length_map]
    omega

/-- C1: for every input on which one of the count gates of the ML stage fails
(vineyard count < 5, positive samples < 5, negative samples < 5, extracted
rows < 10, or a train/test split < 5), `analyzeSuitability` returns a result
whose `mlResults` is a failure carrying exactly the threshold mask
`computeSuitabilityMask(factors)` of the same factors as its fallback, with
the originating DataInsufficiency reason attached. -/
theorem analyzeSuitability_fallback_invariant :
    ∀ (P : Type) (env : GEEEnv P) (src : FactorSources P),
      countGatesFail env = true →
      ∃ e, (analyzeSuitability env src).mlResults
            = .failure e (computeSuitabilityMask (computeEnvironmentalFactors src))
        ∧ e ∈ dataInsufficiencyReasons := by
  intro P env src h
  obtain ⟨e, hb, hmem⟩ := countGatesFail_body env (computeEnvironmentalFactors src)
    (computeSuitabilityMask (computeEnvironmentalFactors src)) h
  exact ⟨e, by simp [analyzeSuitability, runMachineLearning, hb], hmem⟩

/-- C1 witness: with 3 vineyards in the region, the analysis returns a
failure with the threshold mask as fallback. -/
theorem analyzeSuitability_fallback_invariant_witness :
    ∃ e, (analyzeSuitability lowVineyardEnv unitSources).mlResults
          = .failure e (computeSuitabilityMask (computeEnvironmentalFactors unitSources))
      ∧ e ∈ dataInsufficiencyReasons :=
  analyzeSuitability_fallback_invariant Unit lowVineyardEnv unitSources (by decide)

/-- C3: whenever `runMachineLearning` reaches the evaluation step (i.e.
returns a success outcome), the accuracy it returns is a non-NaN value in
the closed interval [0,1]. -/
theorem runMachineLearning_accuracy_bounds :
    ∀ (P : Type) (env : GEEEnv P) (factors : Factors P) (mask : P → Bool)
      (acc : Option ℚ),
      (runMachineLearning env factors mask).mlAccuracy = some acc →
      ∃ q, acc = some q ∧ 0 ≤ q ∧ q ≤ 1 := by
  intro P env factors mask acc h
  unfold runMachineLearning at h
  cases hb : runMachineLearningBody env factors mask with
  | error e => rw [hb] at h; simp [MLOutcome.mlAccuracy] at h
  | ok r =>
    rw [hb] at h
    cases r with
    | failure e mk => simp [MLOutcome.mlAccuracy] at h
    | success s hs a acc' imp pc nc =>
      simp only [MLOutcome.mlAccuracy, Option.some.injEq] at h
      obtain ⟨v, hv, hacc⟩ := body_success_accuracy env factors mask s hs a acc' imp pc nc hb
      rw [← h, hacc]
      exact evaluateAccuracy_bounds env v hv

/-- C3 witness: a concrete successful run returns an accuracy in [0,1]. -/
theorem runMachineLearning_accuracy_bounds_witness :
    ∃ q, (some 0 : Option ℚ) = some q ∧ 0 ≤ q ∧ q ≤ 1 :=
  runMachineLearning_accuracy_bounds Unit throwsAccuracyEnv unitFactors falseMask (some 0)
    (by norm_num [runMachineLearning, runMachineLearningBody, generatePositivePoints,
      generateNegativePoints, positivePointCount, attachRandomColumn,
      evaluateAccuracy, baseEnv, throwsAccuracyEnv, MLOutcome.mlAccuracy])

/-- C7: whenever the vineyard set restricted to the region has fewer than 5
elements, `runMachineLearning` returns a failure with exactly the reason
string "Insufficient vineyard data in the selected region for machine
learning prediction" and the (non-null) input threshold mask; the result is
the same for every environment with that vineyard count, so no sampling,
training, or scoring oracle influences it. -/
theorem runMachineLearning_belowVineyardThreshold :
    ∀ (P : Type) (env : GEEEnv P) (factors : Factors P) (mask : P → Bool) (n : ℕ),
      env.vineyardSize = .ok n → n < 5 →
      runMachineLearning env factors mask
        = .failure
            "Insufficient vineyard data in the selected region for machine learning prediction"
            mask
      ∧ ∀ env' : GEEEnv P, env'.vineyardSize = .ok n →
          runMachineLearning env' factors mask = runMachineLearning env factors mask := by
  intro P env factors mask n hv h5
  have main : ∀ e : GEEEnv P, e.vineyardSize = .ok n →
      runMachineLearning e factors mask
        = .failure
            "Insufficient vineyard data in the selected region for machine learning prediction"
            mask := by
    intro e he
    unfold runMachineLearning runMachineLearningBody
    rw [he]
    simp [h5]
  exact ⟨main env hv, fun env' hv' => by rw [main env' hv', main env hv]⟩

/-- C7 witness: a region with exactly 3 vineyard points yields the distinct
insufficient-vineyard failure with the fallback mask. -/
theorem runMachineLearning_belowVineyardThreshold_witness :
    runMachineLearning lowVineyardEnv unitFactors falseMask
      = .failure
          "Insufficient vineyard data in the selected region for machine learning prediction"
          falseMask :=
  (runMachineLearning_belowVineyardThreshold Unit lowVineyardEnv unitFactors falseMask 3
    rfl (by norm_num)).1

/-- C8: past the vineyard gate, the requested positive sample count is
min(vineyardCount × 10, 200); the points are those the random-point service
generates inside the regional vineyard geometry with fixed seed 123, each
labelled class = 1; and the pipeline fails with the distinct reason when the
realized positive count is below 5. -/
theorem runMachineLearning_positiveSampling :
    ∀ (P : Type) (env : GEEEnv P) (n : ℕ),
      positivePointCount n = min (n * 10) 200
    ∧ generatePositivePoints env n
        = Except.map (List.map (fun p => Sample.mk p 1))
            (env.randomPoints env.regionalVineyardsGeom (min (n * 10) 200) 123)
    ∧ (∀ samples, generatePositivePoints env n = .ok samples →
        ∀ s ∈ samples, s.cls = 1)
    ∧ (∀ (factors : Factors P) (mask : P → Bool) (samples : List Sample),
        env.vineyardSize = .ok n → ¬ n < 5 →
        generatePositivePoints env n = .ok samples → samples.length < 5 →
        runMachineLearning env factors mask
          = .failure "Unable to generate sufficient positive sample points" mask) := by
  intro P env n
  refine ⟨rfl, ?_, ?_, ?_⟩
  · unfold generatePositivePoints positivePointCount
    cases env.randomPoints env.regionalVineyardsGeom (min (n * 10) 200) 123 <;>
      simp [Except.map]
  · intro samples hs s hmem
    unfold generatePositivePoints at hs
    split at hs
    · simp at hs
    · simp only [Except.ok.injEq] at hs
      subst hs
      simp only [List.mem_map] at hmem
      obtain ⟨p, -, rfl⟩ := hmem
      rfl
  · intro factors mask samples hv h5 hgen hlen
    unfold runMachineLearning runMachineLearningBody
    rw [hv]
    simp [h5, hgen, hlen]

/-- C8 witness: with 5 vineyards but only 3 realized positive points, the
pipeline fails with the positive-sample reason. -/
theorem runMachineLearning_positiveSampling_witness :
    runMachineLearning fewPositivesEnv unitFactors falseMask
      = .failure "Unable to generate sufficient positive sample points" falseMask :=
  (runMachineLearning_positiveSampling Unit fewPositivesEnv 5).2.2.2 unitFactors falseMask
    [⟨0, 1⟩, ⟨1, 1⟩, ⟨2, 1⟩] rfl (by norm_num) rfl (by norm_num)

/-- C10: `runMachineLearning` is total at its interface: an exception from
any remote call inside the try block is caught and converted into a failure
value carrying the exception's message and the unchanged threshold mask;
every failure outcome carries the input mask unchanged; and
`analyzeSuitability` always returns a complete result whose `mlResults` is
exactly the ML stage's outcome. -/
theorem runMachineLearning_catches_exceptions :
    ∀ (P : Type) (env : GEEEnv P) (factors : Factors P) (mask : P → Bool),
      (∀ e, runMachineLearningBody env factors mask = .error e →
        runMachineLearning env factors mask = .failure e mask)
    ∧ (∀ e mk, runMachineLearning env factors mask = .failure e mk → mk = mask)
    ∧ (∀ src : FactorSources P,
        (analyzeSuitability env src).mlResults
          = runMachineLearning env (computeEnvironmentalFactors src)
              (computeSuitabilityMask (computeEnvironmentalFactors src))) := by
  intro P env factors mask
  refine ⟨?_, ?_, fun src => rfl⟩
  · intro e he
    unfold runMachineLearning
    rw [he]
  · intro e mk h
    unfold runMachineLearning at h
    cases hb : runMachineLearningBody env factors mask with
    | error e2 =>
      rw [hb] at h
      simp only [MLOutcome.failure.injEq] at h
      exact h.2.symm
    | ok r =>
      rw [hb] at h
      cases r with
      | failure e2 mk2 =>
        simp only [MLOutcome.failure.injEq] at h
        rw [← h.2]
        exact body_failure_mask env factors mask e2 mk2 hb
      | success s hs a acc imp pc nc => simp at h

/-- C10 witness: a provider exception on the first remote call becomes a
failure with that message and the unchanged mask. -/
theorem runMachineLearning_catches_exceptions_witness :
    runMachineLearning throwingEnv unitFactors falseMask
      = .failure "Computation timed out." falseMask :=
  (runMachineLearning_catches_exceptions Unit throwingEnv unitFactors falseMask).1
    "Computation timed out." rfl

/-- C2 (code bug): on a degenerate 5-row test split where every prediction
matches the actual class and the served confusion-matrix accuracy is NaN,
the source's fallback returns 0, because
`validation.filter(ee.Filter.eq('class', 'classification'))` compares the
`class` property with the constant string "classification" and so matches no
rows — whereas the direct recount the claim (and the source's own comment)
describe gives 5/5 = 1. -/
theorem evaluateAccuracy_fallback_counts_nothing :
    evaluateAccuracy nanAccuracyEnv degenerateValidation = some 0
  ∧ eeDiv
      (((degenerateValidation.countP
          (fun v => v.cls == v.classification)) : ℕ) : ℚ)
      (((degenerateValidation.length) : ℕ) : ℚ) = some 1
  ∧ (degenerateValidation.filter
      (eeFilterEq "class" (EEVal.str "classification"))).length = 0 := by
  refine ⟨?_, ?_, ?_⟩
  · norm_num [evaluateAccuracy, nanAccuracyEnv, baseEnv, degenerateValidation,
      eeDiv, eeFilterEq, VRow.getProp, List.replicate]
    exact fun h => EEVal.noConfusion h
  · norm_num [degenerateValidation, eeDiv, List.replicate]
  · norm_num [degenerateValidation, eeFilterEq, VRow.getProp, List.replicate]
    exact fun h => EEVal.noConfusion h
